import Mathlib

/-!
Verification of the core client logic of the `ahp-timetracker` web app
(`src/app/page.tsx`, `src/lib/api.ts`, and the earlier localStorage-only
page kept as `src/unnamed/part_000`).

Modelling conventions, used uniformly below:

* JS `number` arithmetic is modelled over `Rat` (the values involved are
  epoch milliseconds and quarter-hour decimals); `NaN` (where it can arise,
  from `parseFloat`) is modelled as `none` in an `Option Rat`.
* ISO timestamps (produced by `Date.toISOString`) are modelled by their
  epoch-millisecond value (`Int`); the `YYYY-MM-DD` date part produced by
  `formatDate` is modelled by the UTC day index (days since the epoch,
  `Int`), since `toISOString` renders the UTC calendar date.  The string
  `shift_id` built from a date is modelled as `toString dayIndex ++ "_" ++
  name`, an injective rendering, and only equality of `shift_id`s matters.
* The local timezone is a fixed offset `tz` in milliseconds (local time =
  UTC + `tz`); daylight-saving transitions are outside the model.  JS
  `Date` accessors `getDay`/`setDate`/`setHours(0,0,0,0)` act in local
  time; a date-only string passed to `new Date(...)` parses as UTC
  midnight (ECMA-262), i.e. `dayIndex * 86400000` in this model.
* `JSON.parse` of a response body is a runtime primitive; its outcome is
  passed to the response-processing functions as an `Option` of the
  endpoint's response type (`none` = the body is not valid JSON).
-/

namespace AHP

attribute [local semireducible] Rat.mul Rat.inv Rat.add Rat.sub

/-- JS `Math.round`: rounds half toward positive infinity,
`Math.round x = ⌊x + 0.5⌋`. -/
def jsRound (x : Rat) : Int := Rat.floor (x + 1/2)

/-- JS `a || b` for `a : string | undefined`: `b` when `a` is absent or the
empty string (both falsy), else `a`. -/
def jsOrStr (a : Option String) (b : String) : String :=
  match a with
  | some s => if s = "" then b else s
  | none => b

/-- The UTC calendar day index of an epoch-ms timestamp; models the
`YYYY-MM-DD` part of `Date.toISOString`, i.e. `formatDate` in
`page.tsx`. -/
def utcDayIndex (t : Int) : Int := t.fdiv 86400000

/-- The local calendar day index of an epoch-ms timestamp under fixed
offset `tz`. -/
def localDayIndex (tz now : Int) : Int := (now + tz).fdiv 86400000

/-- JS `Date.getDay` (0 = Sunday) of `now` in the local timezone; the
epoch day (1970-01-01) was a Thursday, hence the `+ 4`. -/
def jsGetDay (tz now : Int) : Int := (localDayIndex tz now + 4) % 7

/-- Local day index of the most recent Sunday on or before `now`: the
effect of `startOfWeek.setDate(now.getDate() - now.getDay())` in
`getWeekTotal`. -/
def weekStartSunday (tz now : Int) : Int := localDayIndex tz now - jsGetDay tz now

/-- The `startOfWeek` value of `getWeekTotal` in `page.tsx` as a UTC
epoch-ms timestamp: local midnight of the most recent Sunday
(`setDate` back by `getDay()` days, then `setHours(0,0,0,0)`). -/
def startOfWeekMs (tz now : Int) : Int := weekStartSunday tz now * 86400000 - tz

/-- `ClockState` of `page.tsx` (the spec's ClockSession):
`{isClockedIn, clockInTime}`. -/
structure ClockState where
  isClockedIn : Bool
  clockInTime : Option Int
deriving Repr, DecidableEq

/-- `TimeEntry` of `page.tsx`: one shift; `clockOut` and `hoursWorked` are
null while the shift is open. -/
structure TimeEntry where
  shiftId : String
  date : Int
  clockIn : Int
  clockOut : Option Int
  hoursWorked : Option Rat
deriving Repr, DecidableEq

/-- `MileageEntry` of `page.tsx`; `miles` is a JS number
(`none` models `NaN` from `parseFloat`). -/
structure MileageEntry where
  entryId : String
  date : Int
  miles : Option Rat
  description : String
deriving Repr, DecidableEq

/-- `ClockResponse` of `api.ts`. -/
structure ClockResponse where
  success : Bool
  shift_id : Option String
  hours_worked : Option Rat
  error : Option String
deriving Repr, DecidableEq

/-- `StatusResponse` of `api.ts`. -/
structure StatusResponse where
  clocked_in : Bool
  clock_in_time : Option Int
  elapsed_minutes : Option Rat
deriving Repr, DecidableEq

/-- `MileageResponse` of `api.ts`. -/
structure MileageResponse where
  success : Bool
  entry_id : Option String
  error : Option String
deriving Repr, DecidableEq

/-- The `{success, error?}` result type of `editEntry` in `api.ts`. -/
structure EditResponse where
  success : Bool
  error : Option String
deriving Repr, DecidableEq

/-- The component state of `Home` in `page.tsx` that the clock and ledger
operations read and write. -/
structure AppState where
  clockState : ClockState
  timeEntries : List TimeEntry
  mileageEntries : List MileageEntry
  weekTotalHours : Rat
deriving Repr, DecidableEq

/-- `calculateHoursWorked` of `page.tsx`: elapsed hours between the two
timestamps, `Math.round(diffHours * 4) / 4` (nearest quarter hour). -/
def calculateHoursWorked (clockIn clockOut : Int) : Rat :=
  (jsRound (((clockOut - clockIn : Int) : Rat) / (1000 * 60 * 60) * 4) : Int) / 4

/-- `getWeekTotal` of `page.tsx`: filter to
`new Date(entry.date) >= startOfWeek && entry.hoursWorked !== null`
(the entry's date string parses as UTC midnight), then sum
`hoursWorked`. -/
def getWeekTotal (tz now : Int) (entries : List TimeEntry) : Rat :=
  (entries.filter (fun e =>
      decide (startOfWeekMs tz now ≤ e.date * 86400000) && e.hoursWorked.isSome)).foldl
    (fun sum e => sum + e.hoursWorked.getD 0) 0

/-- The `weekTotal` displayed on the home screen (`page.tsx` line 600):
`weekTotalHours || getWeekTotal(timeEntries)` — the stored value when it
is truthy (nonzero), else the local recomputation. -/
def weekTotalDisplayed (stored : Rat) (tz now : Int) (entries : List TimeEntry) : Rat :=
  if stored = 0 then getWeekTotal tz now entries else stored

/-- The optimistic clock state set by `handleClockIn` before the remote
call resolves. -/
def clockInOptimistic (now : Int) : ClockState :=
  { isClockedIn := true, clockInTime := some now }

/-- The optimistic clock state set by `handleClockOut` before the remote
call resolves. -/
def clockOutOptimistic : ClockState :=
  { isClockedIn := false, clockInTime := none }

/-- The clock-state initialization in `loadUserData` (`page.tsx`): clocked
in with the server's `clock_in_time` when the status reports
`clocked_in` and a (truthy) `clock_in_time`, else clocked out. -/
def initFromStatus (st : StatusResponse) : ClockState :=
  if st.clocked_in && st.clock_in_time.isSome then
    { isClockedIn := true, clockInTime := st.clock_in_time }
  else
    { isClockedIn := false, clockInTime := none }

/-- The clock-state part of the localStorage load in the original page
(`src/unnamed/part_000`): the saved object when the key is present, else
the `useState` default `{isClockedIn: false, clockInTime: null}`. -/
def loadClockFromStorage (saved : Option ClockState) : ClockState :=
  match saved with
  | some c => c
  | none => { isClockedIn := false, clockInTime := none }

/-- `handleClockIn` of `page.tsx`, given the resolved API response: on
failure the optimistic state is reverted and nothing else changes; on
success the new open entry (server `shift_id` or synthesized
`date_user`) is prepended, deduplicating by `shiftId`. -/
def handleClockIn (user : String) (now : Int) (resp : ClockResponse) (s : AppState) : AppState :=
  if resp.success then
    let newEntry : TimeEntry :=
      { shiftId := jsOrStr resp.shift_id (toString (utcDayIndex now) ++ "_" ++ user),
        date := utcDayIndex now,
        clockIn := now,
        clockOut := none,
        hoursWorked := none }
    { s with clockState := clockInOptimistic now,
             timeEntries := newEntry :: s.timeEntries.filter (fun e => e.shiftId != newEntry.shiftId) }
  else
    { s with clockState := { isClockedIn := false, clockInTime := none } }

/-- The predicate of the `findIndex` in `handleClockOut`:
`entry.date === formatDate(now) && entry.clockOut === null`. -/
def openTodayPred (today : Int) (e : TimeEntry) : Bool :=
  (e.date == today) && e.clockOut.isNone

/-- The ledger update in `handleClockOut`'s success branch: `findIndex`
the open entry for today and fill in `clockOut`/`hoursWorked`; leave the
list unchanged when no index matches. -/
def updateFirstOpen (today outMs : Int) (hrs : Rat) (l : List TimeEntry) : List TimeEntry :=
  match l.findIdx? (openTodayPred today) with
  | none => l
  | some i =>
    match l[i]? with
    | none => l
    | some e => l.set i { e with clockOut := some outMs, hoursWorked := some hrs }

/-- The optimistic hours computed by `handleClockOut`:
`prevClockInTime ? calculateHoursWorked(prevClockInTime, clockOutTime) : 0`. -/
def clockOutOptimisticHours (now : Int) (s : AppState) : Rat :=
  match s.clockState.clockInTime with
  | some t => calculateHoursWorked t now
  | none => 0

/-- `handleClockOut` of `page.tsx`, given the resolved API response: on
failure the clock state is rolled back to clocked-in with the previously
captured `clockInTime`; on success the server hours (`??` the optimistic
value) are written into today's open entry and added to the stored week
total. -/
def handleClockOut (now : Int) (resp : ClockResponse) (s : AppState) : AppState :=
  let prev := s.clockState.clockInTime
  if resp.success then
    let actualHours := resp.hours_worked.getD (clockOutOptimisticHours now s)
    { clockState := clockOutOptimistic,
      timeEntries := updateFirstOpen (utcDayIndex now) now actualHours s.timeEntries,
      mileageEntries := s.mileageEntries,
      weekTotalHours := s.weekTotalHours + actualHours }
  else
    { s with clockState := { isClockedIn := true, clockInTime := prev } }

/-- The mileage form state of `page.tsx` (`mileageDate`, `mileageMiles`,
`mileageDescription`); `miles` is the raw text-field string. -/
structure MileageForm where
  date : Int
  miles : String
  description : String
deriving Repr, DecidableEq

/-- Digit run to a natural number, most significant first. -/
def decDigitsVal (cs : List Char) : Nat :=
  cs.foldl (fun n c => 10 * n + (c.toNat - 48)) 0

/-- JS `parseFloat` restricted to plain decimal literals
(`[-]digits[.digits]`, also `.digits` and `digits.`): `none` models `NaN`
for anything else.  (Full `parseFloat` also accepts exponents, leading
whitespace and trailing garbage; the form field only produces plain
decimals, so the restriction is faithful on the inputs that occur.) -/
def parseDecimal (s : String) : Option Rat :=
  let cs0 := s.toList
  let neg : Bool := cs0.head? = some '-'
  let cs := if neg then cs0.drop 1 else cs0
  let intPart := cs.takeWhile Char.isDigit
  let rest := cs.dropWhile Char.isDigit
  let build : List Char → List Char → Rat := fun ip fp =>
    let v : Rat := (decDigitsVal ip : Rat) + (decDigitsVal fp : Rat) / ((10 : Rat) ^ fp.length)
    if neg then -v else v
  match rest with
  | [] => if intPart = [] then none else some (build intPart [])
  | '.' :: frac =>
    if frac.all Char.isDigit && (intPart ≠ [] || frac ≠ []) then
      some (build intPart frac)
    else none
  | _ => none

/-- The part of the component state written by `handleMileageSubmit`:
the mileage ledger and the error toast. -/
structure MileageSubmitResult where
  mileageEntries : List MileageEntry
  showError : Option String
deriving Repr, DecidableEq

/-- `handleMileageSubmit` of `page.tsx`, given the resolved API response:
on success a new entry (server `entry_id` or fallback
`mileage_{Date.now()}`) is prepended to the mileage ledger; on failure
the ledger is untouched and an error toast is shown. -/
def handleMileageSubmit (form : MileageForm) (nowMs : Int) (resp : MileageResponse)
    (pre : List MileageEntry) : MileageSubmitResult :=
  if resp.success then
    { mileageEntries :=
        { entryId := jsOrStr resp.entry_id ("mileage_" ++ toString nowMs),
          date := form.date,
          miles := parseDecimal form.miles,
          description := form.description } :: pre,
      showError := none }
  else
    { mileageEntries := pre,
      showError := some (jsOrStr resp.error "Failed to save mileage") }

/-- The outcome of a `fetch` call as the `api.ts` functions observe it:
either the transport threw (network failure), or a response arrived with
a status code, a body text, and the outcome of `JSON.parse` on that body
(`none` = not valid JSON). -/
inductive FetchOutcome (α : Type) where
  | networkFail : FetchOutcome α
  | reply (status : Nat) (text : String) (parsed : Option α) : FetchOutcome α
deriving Repr, DecidableEq

/-- `Response.ok` of the Fetch API: status in the range 200–299. -/
def respOk (status : Nat) : Bool := 200 ≤ status && status ≤ 299

/-- The `{success:false, error}` result all four POST wrappers return from
their catch block. -/
def connectFailClock : ClockResponse :=
  { success := false, shift_id := none, hours_worked := none,
    error := some "Failed to connect. Please try again." }

/-- Response handling of `clockIn` in `api.ts`: non-ok status throws into
the catch; body `"Accepted"`, empty body, or status 200 synthesizes
`{success:true, shift_id: date_techName}` (the date is the UTC date of
the call); otherwise the parsed JSON is returned verbatim, or
`{success:true}` when the body does not parse. -/
def clockInProcess (techName : String) (nowMs : Int) : FetchOutcome ClockResponse → ClockResponse
  | .networkFail => connectFailClock
  | .reply status text parsed =>
    if !respOk status then connectFailClock
    else if text == "Accepted" || text == "" || status == 200 then
      { success := true, shift_id := some (toString (utcDayIndex nowMs) ++ "_" ++ techName),
        hours_worked := none, error := none }
    else
      match parsed with
      | some r => r
      | none => { success := true, shift_id := none, hours_worked := none, error := none }

/-- Response handling of `clockOut` in `api.ts`: same shape as `clockIn`
but the synthesized success carries no `shift_id`. -/
def clockOutProcess : FetchOutcome ClockResponse → ClockResponse
  | .networkFail => connectFailClock
  | .reply status text parsed =>
    if !respOk status then connectFailClock
    else if text == "Accepted" || text == "" || status == 200 then
      { success := true, shift_id := none, hours_worked := none, error := none }
    else
      match parsed with
      | some r => r
      | none => { success := true, shift_id := none, hours_worked := none, error := none }

/-- The catch-block result of `submitMileage`. -/
def connectFailMileage : MileageResponse :=
  { success := false, entry_id := none,
    error := some "Failed to connect. Please try again." }

/-- Response handling of `submitMileage` in `api.ts`: the synthesized
success carries the fallback id `mileage_{Date.now()}`. -/
def submitMileageProcess (nowMs : Int) : FetchOutcome MileageResponse → MileageResponse
  | .networkFail => connectFailMileage
  | .reply status text parsed =>
    if !respOk status then connectFailMileage
    else if text == "Accepted" || text == "" || status == 200 then
      { success := true, entry_id := some ("mileage_" ++ toString nowMs), error := none }
    else
      match parsed with
      | some r => r
      | none => { success := true, entry_id := none, error := none }

/-- The catch-block result of `editEntry`. -/
def connectFailEdit : EditResponse :=
  { success := false, error := some "Failed to connect. Please try again." }

/-- Response handling of `editEntry` in `api.ts`. -/
def editEntryProcess : FetchOutcome EditResponse → EditResponse
  | .networkFail => connectFailEdit
  | .reply status text parsed =>
    if !respOk status then connectFailEdit
    else if text == "Accepted" || text == "" || status == 200 then
      { success := true, error := none }
    else
      match parsed with
      | some r => r
      | none => { success := true, error := none }

/-- The response-duality contract of one POST wrapper, as the spec's
amended rule states it for a success flag `ok?` and processor `P`:
network failure fails; within 2xx, an `"Accepted"`/empty body or status
200 succeeds; within 2xx an unparseable body succeeds; a non-2xx status
fails; and any failure result comes from a network failure, a non-2xx
status, or a parsed JSON body (on a 2xx, non-200 response) that itself
has `success:false` and is returned verbatim. -/
def dualityHolds {α : Type} (ok? : α → Bool) (P : FetchOutcome α → α) : Prop :=
  ok? (P FetchOutcome.networkFail) = false ∧
  ∀ (status : Nat) (text : String) (p : Option α),
    (respOk status = true → (text = "Accepted" ∨ text = "" ∨ status = 200) →
      ok? (P (FetchOutcome.reply status text p)) = true) ∧
    (respOk status = true → p = none →
      ok? (P (FetchOutcome.reply status text p)) = true) ∧
    (respOk status = false → ok? (P (FetchOutcome.reply status text p)) = false) ∧
    (ok? (P (FetchOutcome.reply status text p)) = false →
      respOk status = false ∨
        ∃ r, p = some r ∧ ok? r = false ∧ P (FetchOutcome.reply status text p) = r)

/-- The clock-state invariant stated by the spec: `clock_in_time` is
non-null iff `is_clocked_in` is true. -/
def clockInv (c : ClockState) : Prop :=
  c.clockInTime ≠ none ↔ c.isClockedIn = true

instance (c : ClockState) : Decidable (clockInv c) := by
  unfold clockInv
  infer_instance

/-- Modelled from the spec (claim C3's words): the week total as "the sum
of hours_worked over exactly those entries whose date is on or after the
most recent Sunday ... and whose hours_worked is non-null", reading
"date on or after Sunday" as a calendar-day comparison against the
week-start Sunday.  To be compared with `getWeekTotal`, which is
translated from the code. -/
def getWeekTotalClaimed (tz now : Int) (entries : List TimeEntry) : Rat :=
  (entries.filter (fun e =>
      decide (weekStartSunday tz now ≤ e.date) && e.hoursWorked.isSome)).foldl
    (fun sum e => sum + e.hoursWorked.getD 0) 0

/-- The corrected week-total predicate: the code compares the entry
date's UTC midnight against local Sunday midnight, so with a negative
UTC offset the week-start Sunday itself is excluded. -/
def getWeekTotalAmendedDef (tz now : Int) (entries : List TimeEntry) : Rat :=
  (entries.filter (fun e =>
      (if 0 ≤ tz then decide (weekStartSunday tz now ≤ e.date)
       else decide (weekStartSunday tz now + 1 ≤ e.date)) && e.hoursWorked.isSome)).foldl
    (fun sum e => sum + e.hoursWorked.getD 0) 0

/-- Modelled from the claim C10's words: "the sum of hours_worked
derivable from the ledger" — total of all non-null `hoursWorked` in the
time-entry list. -/
def ledgerHoursSum (entries : List TimeEntry) : Rat :=
  entries.foldl (fun sum e => sum + e.hoursWorked.getD 0) 0

theorem jsRound_eq_floor (x : Rat) : jsRound x = ⌊x + 1/2⌋ := by
  rw [jsRound, Rat.floor_def', Rat.floor_def]

/-- Claim C1: `clock_in_time` is non-null iff `is_clocked_in` is true, and
every operation that writes the clock state preserves this invariant:
initialization from the status endpoint, the optimistic `clockIn` /
`clockOut` transitions, both handlers' success and rollback outcomes
(`clockOut` is only reachable from the clocked-in state, the UI dispatch
on `clockState.isClockedIn` being its sole call site), and the
localStorage restore of the original page given an invariant-satisfying
stored value. -/
theorem clockInvariant_allOps
    (st : StatusResponse) (user : String) (now : Int) (resp : ClockResponse)
    (s : AppState) (saved : Option ClockState) :
    clockInv (initFromStatus st)
    ∧ clockInv (clockInOptimistic now)
    ∧ clockInv clockOutOptimistic
    ∧ (clockInv s.clockState → clockInv (handleClockIn user now resp s).clockState)
    ∧ (clockInv s.clockState → s.clockState.isClockedIn = true →
        clockInv (handleClockOut now resp s).clockState)
    ∧ ((∀ c, saved = some c → clockInv c) → clockInv (loadClockFromStorage saved)) := by
  refine ⟨?_, ?_, ?_, ?_, ?_, ?_⟩
  · unfold initFromStatus clockInv
    split
    · rename_i h
      simp only [Bool.and_eq_true, Option.isSome_iff_ne_none] at h
      simpa using h.2
    · simp
  · simp [clockInOptimistic, clockInv]
  · simp [clockOutOptimistic, clockInv]
  · intro _
    unfold handleClockIn
    split
    · simp [clockInOptimistic, clockInv]
    · simp [clockInv]
  · intro hinv hin
    unfold handleClockOut
    split
    · simp [clockOutOptimistic, clockInv]
    · have : s.clockState.clockInTime ≠ none := (clockInv.eq_1 _ ▸ hinv).mpr hin
      simpa [clockInv] using this
  · intro h
    cases saved with
    | none => simp [loadClockFromStorage, clockInv]
    | some c => simpa [loadClockFromStorage] using h c rfl

/-- Witness for C1 at concrete inputs: a clocked-out status response, a
successful clock-in from the clocked-out state, a failed clock-out from a
clocked-in state, and an empty localStorage. -/
theorem clockInvariant_allOps_witness :
    clockInv (initFromStatus { clocked_in := false, clock_in_time := none, elapsed_minutes := none })
    ∧ clockInv ((handleClockIn "Bri" 0
        { success := true, shift_id := none, hours_worked := none, error := none }
        { clockState := { isClockedIn := false, clockInTime := none },
          timeEntries := [], mileageEntries := [], weekTotalHours := 0 }).clockState)
    ∧ clockInv ((handleClockOut 3600000
        { success := false, shift_id := none, hours_worked := none, error := some "boom" }
        { clockState := { isClockedIn := true, clockInTime := some 0 },
          timeEntries := [], mileageEntries := [], weekTotalHours := 0 }).clockState)
    ∧ clockInv (loadClockFromStorage none) := by
  have h1 := clockInvariant_allOps
    { clocked_in := false, clock_in_time := none, elapsed_minutes := none } "Bri" 0
    { success := true, shift_id := none, hours_worked := none, error := none }
    { clockState := { isClockedIn := false, clockInTime := none },
      timeEntries := [], mileageEntries := [], weekTotalHours := 0 } none
  have h2 := clockInvariant_allOps
    { clocked_in := false, clock_in_time := none, elapsed_minutes := none } "Bri" 3600000
    { success := false, shift_id := none, hours_worked := none, error := some "boom" }
    { clockState := { isClockedIn := true, clockInTime := some 0 },
      timeEntries := [], mileageEntries := [], weekTotalHours := 0 } none
  exact ⟨h1.1, h1.2.2.2.1 (by decide), h2.2.2.2.2.1 (by decide) (by decide),
    h1.2.2.2.2.2 (by intro c hc; cases hc)⟩

/-- Claim C4: for timestamps `a < b`, `calculateHoursWorked a b` is
`Math.round(((b-a) in hours) * 4) / 4`, always an integer multiple of
0.25 and always nonnegative. -/
theorem calculateHoursWorked_spec (a b : Int) (h : a < b) :
    calculateHoursWorked a b
      = ((jsRound (((b - a : Int) : Rat) / (1000 * 60 * 60) * 4) : Int) : Rat) / 4
    ∧ (∃ n : Int, calculateHoursWorked a b = (n : Rat) / 4)
    ∧ 0 ≤ calculateHoursWorked a b := by
  refine ⟨rfl, ⟨jsRound (((b - a : Int) : Rat) / (1000 * 60 * 60) * 4), rfl⟩, ?_⟩
  have hd : (0 : Rat) < ((b - a : Int) : Rat) := by
    exact_mod_cast Int.sub_pos.mpr h
  have hx : (0 : Rat) ≤ ((b - a : Int) : Rat) / (1000 * 60 * 60) * 4 := by positivity
  have hfloor : (0 : Int) ≤ jsRound (((b - a : Int) : Rat) / (1000 * 60 * 60) * 4) := by
    rw [jsRound_eq_floor]
    apply Int.floor_nonneg.mpr
    linarith
  unfold calculateHoursWorked
  have : (0 : Rat) ≤ ((jsRound (((b - a : Int) : Rat) / (1000 * 60 * 60) * 4) : Int) : Rat) := by
    exact_mod_cast hfloor
  positivity

/-- Witness for C4: a 90-minute shift rounds to 1.5 hours, a multiple of
0.25 and nonnegative. -/
theorem calculateHoursWorked_spec_witness :
    calculateHoursWorked 0 5400000 = 3/2 ∧ 0 ≤ calculateHoursWorked 0 5400000 := by
  refine ⟨?_, (calculateHoursWorked_spec 0 5400000 (by decide)).2.2⟩
  rw [calculateHoursWorked, jsRound_eq_floor]
  norm_num

/-- Claim C5: when the remote clock-in call fails, the clock state is
rolled back to `{is_clocked_in:false, clock_in_time:null}` and the
time-entry ledger is exactly its pre-call value. -/
theorem clockIn_failure_rollback (user : String) (now : Int) (resp : ClockResponse)
    (s : AppState) (hfail : resp.success = false) :
    (handleClockIn user now resp s).clockState
        = { isClockedIn := false, clockInTime := none }
    ∧ (handleClockIn user now resp s).timeEntries = s.timeEntries := by
  simp [handleClockIn, hfail]

/-- Witness for C5: a failed clock-in from a concrete state leaves the
one-entry ledger untouched and the clock state cleared. -/
theorem clockIn_failure_rollback_witness :
    (handleClockIn "Bri" 7200000
        { success := false, shift_id := none, hours_worked := none, error := some "down" }
        { clockState := { isClockedIn := true, clockInTime := some 7200000 },
          timeEntries := [{ shiftId := "19000_Bri", date := 19000, clockIn := 3,
                            clockOut := none, hoursWorked := none }],
          mileageEntries := [], weekTotalHours := 0 }).clockState
      = { isClockedIn := false, clockInTime := none }
    ∧ (handleClockIn "Bri" 7200000
        { success := false, shift_id := none, hours_worked := none, error := some "down" }
        { clockState := { isClockedIn := true, clockInTime := some 7200000 },
          timeEntries := [{ shiftId := "19000_Bri", date := 19000, clockIn := 3,
                            clockOut := none, hoursWorked := none }],
          mileageEntries := [], weekTotalHours := 0 }).timeEntries
      = [{ shiftId := "19000_Bri", date := 19000, clockIn := 3,
           clockOut := none, hoursWorked := none }] :=
  clockIn_failure_rollback "Bri" 7200000
    { success := false, shift_id := none, hours_worked := none, error := some "down" }
    { clockState := { isClockedIn := true, clockInTime := some 7200000 },
      timeEntries := [{ shiftId := "19000_Bri", date := 19000, clockIn := 3,
                        clockOut := none, hoursWorked := none }],
      mileageEntries := [], weekTotalHours := 0 } rfl

/-- Claim C6: when the remote clock-out call fails, the clock state is
rolled back to exactly its pre-call clocked-in value, with the
`clock_in_time` captured before the call. -/
theorem clockOut_failure_rollback (now : Int) (resp : ClockResponse) (s : AppState)
    (hin : s.clockState.isClockedIn = true) (hfail : resp.success = false) :
    (handleClockOut now resp s).clockState = s.clockState := by
  cases hcs : s.clockState with
  | mk b t =>
    rw [hcs] at hin
    simp only [ClockState.isClockedIn] at hin
    subst hin
    simp [handleClockOut, hfail, hcs]

/-- Witness for C6: a failed clock-out from a clocked-in state restores
that exact state. -/
theorem clockOut_failure_rollback_witness :
    (handleClockOut 9000000
        { success := false, shift_id := none, hours_worked := none, error := none }
        { clockState := { isClockedIn := true, clockInTime := some 1800000 },
          timeEntries := [], mileageEntries := [], weekTotalHours := 4 }).clockState
      = { isClockedIn := true, clockInTime := some 1800000 } :=
  clockOut_failure_rollback 9000000
    { success := false, shift_id := none, hours_worked := none, error := none }
    { clockState := { isClockedIn := true, clockInTime := some 1800000 },
      timeEntries := [], mileageEntries := [], weekTotalHours := 4 } rfl rfl

/-- Claim C2 counterexample: with a server-provided week total of `0`
(as the last history load can deliver) and a ledger whose local
recomputation gives 2.5 h, the displayed total is 2.5, not the server's
0 — JS `||` treats the number 0 as falsy, so the server value does not
take precedence. -/
theorem weekTotal_display_counterexample :
    weekTotalDisplayed 0 0 302400000
        [{ shiftId := "3_Bri", date := 3, clockIn := 259200000,
           clockOut := some 268200000, hoursWorked := some (5/2) }]
      = 5/2
    ∧ weekTotalDisplayed 0 0 302400000
        [{ shiftId := "3_Bri", date := 3, clockIn := 259200000,
           clockOut := some 268200000, hoursWorked := some (5/2) }]
      ≠ 0 := by
  have h : weekTotalDisplayed 0 0 302400000
      [{ shiftId := "3_Bri", date := 3, clockIn := 259200000,
         clockOut := some 268200000, hoursWorked := some (5/2) }] = 5/2 := by
    norm_num [weekTotalDisplayed, getWeekTotal, startOfWeekMs, weekStartSunday,
      localDayIndex, jsGetDay, List.filter, List.foldl]
  exact ⟨h, by rw [h]; norm_num⟩

/-- Claim C2 amended: the displayed week total equals the stored
(server-provided) value whenever that value is nonzero; a stored value
of 0 is treated as absent by the `||` and the local `getWeekTotal`
recomputation is displayed instead. -/
theorem weekTotal_display_amended (stored : Rat) (tz now : Int) (entries : List TimeEntry) :
    (stored ≠ 0 → weekTotalDisplayed stored tz now entries = stored)
    ∧ (stored = 0 → weekTotalDisplayed stored tz now entries = getWeekTotal tz now entries) := by
  unfold weekTotalDisplayed
  constructor <;> intro h <;> simp [h]

/-- Witness for the amended C2: a nonzero stored total of 7 is displayed
as is. -/
theorem weekTotal_display_amended_witness :
    weekTotalDisplayed 7 0 302400000 [] = 7 :=
  (weekTotal_display_amended 7 0 302400000 []).1 (by norm_num)

/-- Claim C3 counterexample: in a negative-offset timezone (here UTC−5,
the app's own), an entry dated exactly on the week-start Sunday with
non-null hours is excluded by `getWeekTotal` — the date-only string
parses as UTC midnight, which precedes local Sunday midnight — so the
code's total (0) differs from the claimed sum (2). -/
theorem getWeekTotal_sunday_counterexample :
    getWeekTotal (-18000000) 302400000
        [{ shiftId := "3_Bri", date := 3, clockIn := 259200000,
           clockOut := some 266400000, hoursWorked := some 2 }]
      = 0
    ∧ getWeekTotalClaimed (-18000000) 302400000
        [{ shiftId := "3_Bri", date := 3, clockIn := 259200000,
           clockOut := some 266400000, hoursWorked := some 2 }]
      = 2
    ∧ getWeekTotal (-18000000) 302400000
        [{ shiftId := "3_Bri", date := 3, clockIn := 259200000,
           clockOut := some 266400000, hoursWorked := some 2 }]
      ≠ getWeekTotalClaimed (-18000000) 302400000
        [{ shiftId := "3_Bri", date := 3, clockIn := 259200000,
           clockOut := some 266400000, hoursWorked := some 2 }] := by
  have h1 : getWeekTotal (-18000000) 302400000
      [{ shiftId := "3_Bri", date := 3, clockIn := 259200000,
         clockOut := some 266400000, hoursWorked := some 2 }] = 0 := by
    norm_num [getWeekTotal, startOfWeekMs, weekStartSunday,
      localDayIndex, jsGetDay, List.filter, List.foldl]
  have h2 : getWeekTotalClaimed (-18000000) 302400000
      [{ shiftId := "3_Bri", date := 3, clockIn := 259200000,
         clockOut := some 266400000, hoursWorked := some 2 }] = 2 := by
    norm_num [getWeekTotalClaimed, weekStartSunday,
      localDayIndex, jsGetDay, List.filter, List.foldl]
  exact ⟨h1, h2, by rw [h1, h2]; norm_num⟩

/-- Claim C3 amended: for any real UTC offset (|tz| < 24 h),
`getWeekTotal` sums `hours_worked` over exactly the non-null-hours
entries whose date is ≥ the week-start Sunday when the offset is
nonnegative, and ≥ the day after the week-start Sunday when the offset
is negative (the Sunday-dated entry itself is then excluded); prior-week
entries and null-hours entries are always excluded. -/
theorem getWeekTotal_amended (tz now : Int) (entries : List TimeEntry)
    (h1 : -86400000 < tz) (h2 : tz < 86400000) :
    getWeekTotal tz now entries = getWeekTotalAmendedDef tz now entries := by
  unfold getWeekTotal getWeekTotalAmendedDef
  congr 1
  apply List.filter_congr
  intro e _
  have key : (startOfWeekMs tz now ≤ e.date * 86400000)
      ↔ (if 0 ≤ tz then weekStartSunday tz now ≤ e.date
         else weekStartSunday tz now + 1 ≤ e.date) := by
    unfold startOfWeekMs
    split <;> omega
  by_cases htz : 0 ≤ tz
  · rw [if_pos htz] at key
    rw [if_pos htz, decide_eq_decide.mpr key]
  · rw [if_neg htz] at key
    rw [if_neg htz, decide_eq_decide.mpr key]

/-- Witness for the amended C3 at the counterexample's concrete input:
the code total and the amended description agree at UTC−5. -/
theorem getWeekTotal_amended_witness :
    getWeekTotal (-18000000) 302400000
        [{ shiftId := "3_Bri", date := 3, clockIn := 259200000,
           clockOut := some 266400000, hoursWorked := some 2 }]
      = getWeekTotalAmendedDef (-18000000) 302400000
        [{ shiftId := "3_Bri", date := 3, clockIn := 259200000,
           clockOut := some 266400000, hoursWorked := some 2 }] :=
  getWeekTotal_amended (-18000000) 302400000
    [{ shiftId := "3_Bri", date := 3, clockIn := 259200000,
       clockOut := some 266400000, hoursWorked := some 2 }]
    (by decide) (by decide)

/-- Claim C7: on a successful clock-out the recorded hours are the
server's `hours_worked` when present, else the client's optimistic
value; the ledger entry updated is the one found by
`date == today && clock_out == null` (its identity fields are kept, only
`clockOut`/`hoursWorked` are filled in, and every other position is
unchanged); and the recorded hours are added to the running week
total. -/
theorem clockOut_success_reconcile (now : Int) (resp : ClockResponse) (s : AppState)
    (hok : resp.success = true) :
    (resp.hours_worked = none →
        (handleClockOut now resp s).weekTotalHours
          = s.weekTotalHours + clockOutOptimisticHours now s)
    ∧ (∀ h, resp.hours_worked = some h →
        (handleClockOut now resp s).weekTotalHours = s.weekTotalHours + h)
    ∧ (∀ i, s.timeEntries.findIdx? (openTodayPred (utcDayIndex now)) = some i →
        ∃ e, s.timeEntries[i]? = some e ∧ e.date = utcDayIndex now ∧ e.clockOut = none ∧
          (handleClockOut now resp s).timeEntries
            = s.timeEntries.set i { e with clockOut := some now, hoursWorked := some (resp.hours_worked.getD (clockOutOptimisticHours now s)) }
          ∧ (handleClockOut now resp s).timeEntries[i]?
            = some { e with clockOut := some now, hoursWorked := some (resp.hours_worked.getD (clockOutOptimisticHours now s)) }
          ∧ ∀ j, j ≠ i →
              (handleClockOut now resp s).timeEntries[j]? = s.timeEntries[j]?) := by
  refine ⟨?_, ?_, ?_⟩
  · intro hnone
    simp [handleClockOut, hok, hnone]
  · intro h hsome
    simp [handleClockOut, hok, hsome]
  · intro i hfind
    obtain ⟨hlt, hp, -⟩ := List.findIdx?_eq_some_iff_getElem.mp hfind
    have hsome : s.timeEntries[i]? = some s.timeEntries[i] := List.getElem?_eq_getElem hlt
    simp only [openTodayPred, Bool.and_eq_true, beq_iff_eq, Option.isNone_iff_eq_none] at hp
    have hpost : (handleClockOut now resp s).timeEntries
        = s.timeEntries.set i { s.timeEntries[i] with clockOut := some now, hoursWorked := some (resp.hours_worked.getD (clockOutOptimisticHours now s)) } := by
      simp only [handleClockOut, hok, if_true]
      simp only [updateFirstOpen, hfind, hsome]
    refine ⟨s.timeEntries[i], hsome, hp.1, hp.2, hpost, ?_, ?_⟩
    · rw [hpost]
      exact List.getElem?_set_self hlt
    · intro j hj
      rw [hpost]
      exact List.getElem?_set_ne (fun hij => hj hij.symm)

/-- Witness for C7: a concrete successful clock-out with server hours 2.25
against a one-entry ledger whose entry is today's open shift. -/
theorem clockOut_success_reconcile_witness :
    (handleClockOut 302400000
        { success := true, shift_id := none, hours_worked := some (9/4), error := none }
        { clockState := { isClockedIn := true, clockInTime := some 294300000 },
          timeEntries := [{ shiftId := "3_Bri", date := 3, clockIn := 294300000,
                            clockOut := none, hoursWorked := none }],
          mileageEntries := [], weekTotalHours := 10 }).weekTotalHours
      = 10 + 9/4
    ∧ ∃ e, ([{ shiftId := "3_Bri", date := 3, clockIn := 294300000,
               clockOut := none, hoursWorked := none }] : List TimeEntry)[0]? = some e
        ∧ e.date = 3 ∧ e.clockOut = none := by
  have h := clockOut_success_reconcile 302400000
    { success := true, shift_id := none, hours_worked := some (9/4), error := none }
    { clockState := { isClockedIn := true, clockInTime := some 294300000 },
      timeEntries := [{ shiftId := "3_Bri", date := 3, clockIn := 294300000,
                        clockOut := none, hoursWorked := none }],
      mileageEntries := [], weekTotalHours := 10 } rfl
  refine ⟨h.2.1 (9/4) rfl, ?_⟩
  obtain ⟨e, he, hdate, hopen, -⟩ := h.2.2 0 (by decide)
  exact ⟨e, he, by simpa using hdate, hopen⟩

/-- Claim C10 (implicit): on a successful clock-out with no open entry
for today in the ledger, the time-entry list is unchanged while the
stored week total still grows by the recorded hours; consequently (second
conjunct, at a concrete input) the stored week total can exceed the sum
of `hours_worked` derivable from the ledger. -/
theorem clockOut_noOpenEntry :
    (∀ (now : Int) (resp : ClockResponse) (s : AppState),
      resp.success = true →
      s.timeEntries.findIdx? (openTodayPred (utcDayIndex now)) = none →
        (handleClockOut now resp s).timeEntries = s.timeEntries
        ∧ (resp.hours_worked = none →
            (handleClockOut now resp s).weekTotalHours
              = s.weekTotalHours + clockOutOptimisticHours now s)
        ∧ (∀ h, resp.hours_worked = some h →
            (handleClockOut now resp s).weekTotalHours = s.weekTotalHours + h))
    ∧ ledgerHoursSum ((handleClockOut 3600000
          { success := true, shift_id := none, hours_worked := none, error := none }
          { clockState := { isClockedIn := true, clockInTime := some 0 },
            timeEntries := [], mileageEntries := [], weekTotalHours := 0 }).timeEntries)
        < (handleClockOut 3600000
          { success := true, shift_id := none, hours_worked := none, error := none }
          { clockState := { isClockedIn := true, clockInTime := some 0 },
            timeEntries := [], mileageEntries := [], weekTotalHours := 0 }).weekTotalHours := by
  constructor
  · intro now resp s hok hnone
    refine ⟨?_, ?_, ?_⟩
    · simp [handleClockOut, hok, updateFirstOpen, hnone]
    · intro hnoh
      simp [handleClockOut, hok, hnoh]
    · intro h hsome
      simp [handleClockOut, hok, hsome]
  · have hcalc : calculateHoursWorked 0 3600000 = 1 := by
      rw [calculateHoursWorked, jsRound_eq_floor]
      norm_num
    simp only [handleClockOut, updateFirstOpen, clockOutOptimisticHours]
    norm_num [ledgerHoursSum, List.foldl, hcalc]

/-- Witness for C10: the concrete no-open-entry clock-out leaves the empty
ledger empty and raises the stored week total by the optimistic hour. -/
theorem clockOut_noOpenEntry_witness :
    (handleClockOut 3600000
        { success := true, shift_id := none, hours_worked := none, error := none }
        { clockState := { isClockedIn := true, clockInTime := some 0 },
          timeEntries := [], mileageEntries := [], weekTotalHours := 0 }).timeEntries = []
    ∧ (handleClockOut 3600000
        { success := true, shift_id := none, hours_worked := none, error := none }
        { clockState := { isClockedIn := true, clockInTime := some 0 },
          timeEntries := [], mileageEntries := [], weekTotalHours := 0 }).weekTotalHours
      = 0 + clockOutOptimisticHours 3600000
          { clockState := { isClockedIn := true, clockInTime := some 0 },
            timeEntries := [], mileageEntries := [], weekTotalHours := 0 } := by
  have h := clockOut_noOpenEntry.1 3600000
    { success := true, shift_id := none, hours_worked := none, error := none }
    { clockState := { isClockedIn := true, clockInTime := some 0 },
      timeEntries := [], mileageEntries := [], weekTotalHours := 0 } rfl (by decide)
  exact ⟨h.1, h.2.1 rfl⟩

/-- Claim C9: on a successful mileage submission a `MileageEntry` carrying
the submitted date, parsed miles, and description is inserted at the head
of the mileage ledger, with the server's `entry_id` when present (and
truthy) or the locally synthesized `mileage_{Date.now()}` fallback; on
failure the ledger is exactly its pre-call value and an error toast is
surfaced. -/
theorem submitMileage_ledger (form : MileageForm) (nowMs : Int) (resp : MileageResponse)
    (pre : List MileageEntry) :
    (resp.success = true →
        (handleMileageSubmit form nowMs resp pre).mileageEntries
          = { entryId := jsOrStr resp.entry_id ("mileage_" ++ toString nowMs), date := form.date, miles := parseDecimal form.miles, description := form.description } :: pre)
    ∧ (resp.success = false →
        (handleMileageSubmit form nowMs resp pre).mileageEntries = pre
        ∧ (handleMileageSubmit form nowMs resp pre).showError ≠ none) := by
  constructor <;> intro h <;> simp [handleMileageSubmit, h]

/-- Witness for C9, the spec's own example: submitting `miles="12.5"`,
`description="Site visit"` successfully inserts an entry with
`miles == 12.5` at the head of the (empty) mileage list, and the same
submission failing leaves a one-entry ledger untouched. -/
theorem submitMileage_ledger_witness :
    (handleMileageSubmit { date := 3, miles := "12.5", description := "Site visit" } 99
        { success := true, entry_id := some "m77", error := none } []).mileageEntries
      = [{ entryId := "m77", date := 3, miles := some (25/2), description := "Site visit" }]
    ∧ (handleMileageSubmit { date := 3, miles := "12.5", description := "Site visit" } 99
        { success := false, entry_id := none, error := some "nope" }
        [{ entryId := "m1", date := 2, miles := some 4, description := "d" }]).mileageEntries
      = [{ entryId := "m1", date := 2, miles := some 4, description := "d" }] := by
  have hs := (submitMileage_ledger { date := 3, miles := "12.5", description := "Site visit" } 99
    { success := true, entry_id := some "m77", error := none } []).1 rfl
  have hf := (submitMileage_ledger { date := 3, miles := "12.5", description := "Site visit" } 99
    { success := false, entry_id := none, error := some "nope" }
    [{ entryId := "m1", date := 2, miles := some 4, description := "d" }]).2 rfl
  refine ⟨?_, hf.1⟩
  rw [hs]
  have hm : parseDecimal "12.5" = some (25/2) := by decide
  have hid : jsOrStr (some "m77") ("mileage_" ++ toString (99 : Int)) = "m77" := by decide
  rw [hm, hid]

theorem duality_clockIn (techName : String) (n : Int) :
    dualityHolds ClockResponse.success (clockInProcess techName n) := by
  constructor
  · rfl
  intro status text p
  refine ⟨?_, ?_, ?_, ?_⟩
  · intro hok htxt
    rcases htxt with h | h | h <;> subst h <;> simp [clockInProcess, hok]
  · intro hok hpn
    subst hpn
    simp only [clockInProcess, hok, Bool.not_true, Bool.false_eq_true, if_false]
    split <;> rfl
  · intro hok
    simp [clockInProcess, hok, connectFailClock]
  · intro hfail
    by_cases hok : respOk status = true
    · right
      simp only [clockInProcess, hok, Bool.not_true, Bool.false_eq_true, if_false] at hfail
      revert hfail
      split
      · intro hfa
        simp at hfa
      · rename_i hcond
        intro hfa
        cases p with
        | none => simp at hfa
        | some r =>
          refine ⟨r, rfl, hfa, ?_⟩
          simp [clockInProcess, hok, hcond]
    · left
      simpa using hok

theorem duality_clockOut : dualityHolds ClockResponse.success clockOutProcess := by
  constructor
  · rfl
  intro status text p
  refine ⟨?_, ?_, ?_, ?_⟩
  · intro hok htxt
    rcases htxt with h | h | h <;> subst h <;> simp [clockOutProcess, hok]
  · intro hok hpn
    subst hpn
    simp only [clockOutProcess, hok, Bool.not_true, Bool.false_eq_true, if_false]
    split <;> rfl
  · intro hok
    simp [clockOutProcess, hok, connectFailClock]
  · intro hfail
    by_cases hok : respOk status = true
    · right
      simp only [clockOutProcess, hok, Bool.not_true, Bool.false_eq_true, if_false] at hfail
      revert hfail
      split
      · intro hfa
        simp at hfa
      · rename_i hcond
        intro hfa
        cases p with
        | none => simp at hfa
        | some r =>
          refine ⟨r, rfl, hfa, ?_⟩
          simp [clockOutProcess, hok, hcond]
    · left
      simpa using hok

theorem duality_mileage (m : Int) :
    dualityHolds MileageResponse.success (submitMileageProcess m) := by
  constructor
  · rfl
  intro status text p
  refine ⟨?_, ?_, ?_, ?_⟩
  · intro hok htxt
    rcases htxt with h | h | h <;> subst h <;> simp [submitMileageProcess, hok]
  · intro hok hpn
    subst hpn
    simp only [submitMileageProcess, hok, Bool.not_true, Bool.false_eq_true, if_false]
    split <;> rfl
  · intro hok
    simp [submitMileageProcess, hok, connectFailMileage]
  · intro hfail
    by_cases hok : respOk status = true
    · right
      simp only [submitMileageProcess, hok, Bool.not_true, Bool.false_eq_true, if_false] at hfail
      revert hfail
      split
      · intro hfa
        simp at hfa
      · rename_i hcond
        intro hfa
        cases p with
        | none => simp at hfa
        | some r =>
          refine ⟨r, rfl, hfa, ?_⟩
          simp [submitMileageProcess, hok, hcond]
    · left
      simpa using hok

theorem duality_edit : dualityHolds EditResponse.success editEntryProcess := by
  constructor
  · rfl
  intro status text p
  refine ⟨?_, ?_, ?_, ?_⟩
  · intro hok htxt
    rcases htxt with h | h | h <;> subst h <;> simp [editEntryProcess, hok]
  · intro hok hpn
    subst hpn
    simp only [editEntryProcess, hok, Bool.not_true, Bool.false_eq_true, if_false]
    split <;> rfl
  · intro hok
    simp [editEntryProcess, hok, connectFailEdit]
  · intro hfail
    by_cases hok : respOk status = true
    · right
      simp only [editEntryProcess, hok, Bool.not_true, Bool.false_eq_true, if_false] at hfail
      revert hfail
      split
      · intro hfa
        simp at hfa
      · rename_i hcond
        intro hfa
        cases p with
        | none => simp at hfa
        | some r =>
          refine ⟨r, rfl, hfa, ?_⟩
          simp [editEntryProcess, hok, hcond]
    · left
      simpa using hok

/-- Claim C8 counterexample: a 201 (2xx but not 200) response whose body
is the JSON text `\x7b"success":false,"error":"denied"\x7d` is parsed and
returned verbatim by the clock-out wrapper, producing a failure result
from a 2xx status with no network failure — so failures are not produced
only on network-level failure or non-2xx status. -/
theorem postResponse_counterexample :
    (clockOutProcess (FetchOutcome.reply 201 "\x7b\"success\":false,\"error\":\"denied\"\x7d"
        (some { success := false, shift_id := none, hours_worked := none,
                error := some "denied" }))).success = false
    ∧ respOk 201 = true
    ∧ (FetchOutcome.reply 201 "\x7b\"success\":false,\"error\":\"denied\"\x7d"
        (some ({ success := false, shift_id := none, hours_worked := none,
                 error := some "denied" } : ClockResponse)))
      ≠ FetchOutcome.networkFail := by
  refine ⟨by decide, by decide, by decide⟩

/-- Claim C8 amended: for every POST wrapper (clock in, clock out,
mileage, edit entry): network failure yields a failure result; a non-2xx
status yields a failure result; within 2xx, an `"Accepted"` body, an
empty body, or status exactly 200 yields success, as does an unparseable
body; and every failure result arises from a network failure, a non-2xx
status, or a parseable JSON body on a 2xx non-200 response that itself
carries `success:false` and is returned verbatim. -/
theorem postResponse_amended (techName : String) (n m : Int) :
    dualityHolds ClockResponse.success (clockInProcess techName n)
    ∧ dualityHolds ClockResponse.success clockOutProcess
    ∧ dualityHolds MileageResponse.success (submitMileageProcess m)
    ∧ dualityHolds EditResponse.success editEntryProcess :=
  ⟨duality_clockIn techName n, duality_clockOut, duality_mileage m, duality_edit⟩

/-- Witness for the amended C8 at concrete inputs: a status-200 empty
body succeeds for clock-in, and the counterexample's 201 JSON-false reply
is accounted for by the failure clause (its parsed body is returned
verbatim). -/
theorem postResponse_amended_witness :
    (clockInProcess "Bri" 0 (FetchOutcome.reply 200 "" none)).success = true
    ∧ (respOk 201 = false ∨
        ∃ r, (some { success := false, shift_id := none, hours_worked := none,
                     error := some "denied" } : Option ClockResponse) = some r
          ∧ r.success = false
          ∧ clockOutProcess (FetchOutcome.reply 201
              "\x7b\"success\":false,\"error\":\"denied\"\x7d"
              (some { success := false, shift_id := none, hours_worked := none,
                      error := some "denied" })) = r) := by
  have h := postResponse_amended "Bri" 0 0
  refine ⟨(h.1.2 200 "" none).1 (by decide) (Or.inr (Or.inl rfl)), ?_⟩
  exact (h.2.1.2 201 "\x7b\"success\":false,\"error\":\"denied\"\x7d"
    (some { success := false, shift_id := none, hours_worked := none,
            error := some "denied" })).2.2.2 (by decide)

end AHP
